import Mathlib

/-!
Shallow embedding of the clause-consistency verification engine of
qwed-legal: `ClauseGuard` (heuristic proposition extraction and pairwise
conflict detection over clause texts, plus the boolean-assertion Z3 entry
point) and `ContradictionGuard` (keyword-driven constraint compilation over
categorized clauses and an integer-interval model of the Z3 satisfiability
check).  Texts are handled as character lists; all keyword and anchor
literals of the source are ASCII.
-/

namespace QwedLegal

/-- ASCII lower-casing of one character: the fragment of Python `str.lower`
exercised here (every keyword, anchor and sample text is ASCII). -/
def lowerChar (c : Char) : Char :=
  if 'A' ≤ c ∧ c ≤ 'Z' then Char.ofNat (c.toNat + 32) else c

/-- Python `s.lower()` over the character list of a clause text. -/
def toLowerChars (s : List Char) : List Char := s.map lowerChar

/-- If `w` is a literal prefix of `s`, return the remainder of `s`. -/
def stripLit : List Char → List Char → Option (List Char)
  | [], s => some s
  | _ :: _, [] => none
  | c :: w, d :: s => if c = d then stripLit w s else none

/-- Python substring test `pat in hay`. -/
def containsSub (hay pat : List Char) : Bool :=
  match hay with
  | [] => pat.isEmpty
  | _ :: rest => (stripLit pat hay).isSome || containsSub rest pat

/-- Python regex `\s` restricted to ASCII whitespace (the inputs the guard
lowercases are ASCII, see above). -/
def isPyWs (c : Char) : Bool :=
  c == ' ' || c == '\t' || c == '\n' || c == '\x0b' || c == '\x0c' || c == '\r'

/-- Python regex `\d` restricted to ASCII digits. -/
def isPyDigit (c : Char) : Bool := decide ('0' ≤ c) && decide (c ≤ '9')

/-- Value of the decimal digit string captured by `(\d+)` (Python `int`). -/
def natOfDigits (cs : List Char) : Nat :=
  cs.foldl (fun n c => n * 10 + (c.toNat - 48)) 0

/-- Match the literal `w` followed by `\s+`; on success return what follows
the whitespace run.  Consuming the run maximally is exact for the two day
patterns because every literal that can follow starts with a
non-whitespace character. -/
def wordWs (w : List Char) (s : List Char) : Option (List Char) :=
  match stripLit w s with
  | none => none
  | some r =>
    match r with
    | [] => none
    | c :: _ => if isPyWs c then some (r.dropWhile isPyWs) else none

/-- Match `\s*ctx` at the head of `s` (`ctx` is `notice` or `before`, which
start with non-whitespace characters, so the maximal run is exact). -/
def wsThenLit (ctx : List Char) (s : List Char) : Bool :=
  (stripLit ctx (s.dropWhile isPyWs)).isSome

/-- Match `days?\s*ctx` at the head of `s`: greedy on the optional `s`, with
backtracking to the branch that drops it. -/
def daysThenCtx (ctx : List Char) (s : List Char) : Bool :=
  match stripLit ("day".data) s with
  | none => false
  | some r =>
    (match r with
     | 's' :: r2 => wsThenLit ctx r2
     | _ => false) || wsThenLit ctx r

/-- Match `\s*(?:calendar\s+)?(?:business\s+)?days?\s*ctx` at the head of
`s`, backtracking over the two optional word groups. -/
def afterNumTail (ctx : List Char) (s : List Char) : Bool :=
  let s1 := s.dropWhile isPyWs
  let busLevel : List Char → Bool := fun t =>
    (match wordWs ("business".data) t with
     | some t2 => daysThenCtx ctx t2
     | none => false) || daysThenCtx ctx t
  (match wordWs ("calendar".data) s1 with
   | some t => busLevel t
   | none => false) || busLevel s1

/-- Match `days?` at the head of `s` (the second day pattern ends here, so
the optional `s` constrains nothing). -/
def daysEnd (s : List Char) : Bool := (stripLit ("day".data) s).isSome

/-- Match `\s*(?:calendar\s+)?(?:business\s+)?days?` at the head of `s`. -/
def afterNumTail2 (s : List Char) : Bool :=
  let s1 := s.dropWhile isPyWs
  let busLevel : List Char → Bool := fun t =>
    (match wordWs ("business".data) t with
     | some t2 => daysEnd t2
     | none => false) || daysEnd t
  (match wordWs ("calendar".data) s1 with
   | some t => busLevel t
   | none => false) || busLevel s1

/-- Greedy `(\d+)`: with `s` starting at a digit run of length at least `k`,
try capturing `k, k-1, ..., 1` leading digits so that `tail` matches what
follows; return the value of the first (longest) successful capture. -/
def greedyDigits (tail : List Char → Bool) (s : List Char) : Nat → Option Nat
  | 0 => none
  | k + 1 =>
    if tail (s.drop (k + 1)) then some (natOfDigits (s.take (k + 1)))
    else greedyDigits tail s k

/-- `re.search` of `(\d+)\s*(?:calendar\s+)?(?:business\s+)?days?\s*ctx`:
try every start position left to right; a match must start at a digit. -/
def searchNumThenCtx (ctx : List Char) : List Char → Option Nat
  | [] => none
  | c :: rest =>
    match
      (if isPyDigit c then
        greedyDigits (afterNumTail ctx) (c :: rest)
          (((c :: rest).takeWhile isPyDigit).length)
      else none)
    with
    | some n => some n
    | none => searchNumThenCtx ctx rest

/-- `re.search` of `ctx\s*(\d+)\s*(?:calendar\s+)?(?:business\s+)?days?`. -/
def searchCtxThenNum (ctx : List Char) : List Char → Option Nat
  | [] => none
  | c :: rest =>
    match
      (match stripLit ctx (c :: rest) with
       | none => none
       | some r =>
         let r1 := r.dropWhile isPyWs
         greedyDigits afterNumTail2 r1 ((r1.takeWhile isPyDigit).length))
    with
    | some n => some n
    | none => searchCtxThenNum ctx rest

/-- `ClauseGuard._extract_days`: `None` when the anchor word is absent from
the text; otherwise the number-before-anchor pattern is tried first, then
the anchor-before-number pattern. -/
def extract_days (text : List Char) (ctx : List Char) : Option Nat :=
  if containsSub text ctx then
    match searchNumThenCtx ctx text with
    | some n => some n
    | none => searchCtxThenNum ctx text
  else none

/-- Outcome of a Z3 `Solver.check()` call. -/
inductive Z3Result
  | sat
  | unsat
  | unknown
  deriving DecidableEq

namespace ClauseGuard

/-- The per-clause record built by `ClauseGuard._extract_propositions`. -/
structure Proposition where
  text : String
  can_terminate : Bool
  termination_notice_days : Option Nat
  min_term_days : Option Nat
  is_exclusive : Bool
  is_prohibition : Bool
  is_permission : Bool
  parties : List String
  deriving DecidableEq

/-- `ClauseResult` dataclass. -/
structure ClauseResult where
  consistent : Bool
  conflicts : List (Nat × Nat × String)
  message : String
  deriving DecidableEq

/-- `ClauseGuard._has_termination`. -/
def has_termination (text : List Char) : Bool :=
  ["terminate", "termination", "cancel", "end the agreement"].any
    (fun t => containsSub text t.data)

/-- The prohibition keyword disjunction of `_extract_propositions`. -/
def prohibKeyword (text : List Char) : Bool :=
  ["may not", "cannot", "neither", "shall not"].any
    (fun w => containsSub text w.data)

/-- The permission keyword disjunction of `_extract_propositions`. -/
def permKeyword (text : List Char) : Bool :=
  ["may ", "can ", "allowed"].any (fun w => containsSub text w.data)

/-- The fixed party vocabulary of `ClauseGuard._extract_parties`. -/
def partyVocab : List String :=
  ["seller", "buyer", "vendor", "customer", "licensee", "licensor",
   "party", "parties", "company", "contractor"]

/-- `ClauseGuard._extract_parties`: the set is represented canonically as
the sublist of the fixed vocabulary that occurs in the text (only emptiness
and intersection of these sets are ever consumed). -/
def extract_parties (text : List Char) : List String :=
  partyVocab.filter (fun p => containsSub text p.data)

/-- One clause's entry of `ClauseGuard._extract_propositions`. -/
def extractProp (clause : String) : Proposition :=
  let lower := toLowerChars clause.data
  { text := clause
    can_terminate := has_termination lower
    termination_notice_days := extract_days lower ("notice".data)
    min_term_days := extract_days lower ("before".data)
    is_exclusive := containsSub lower ("exclusive".data) || containsSub lower ("only".data)
    is_prohibition := prohibKeyword lower
    is_permission := permKeyword lower
    parties := extract_parties lower }

/-- `ClauseGuard._extract_propositions`. -/
def extract_propositions (clauses : List String) : List Proposition :=
  clauses.map extractProp

/-- Python truthiness of an optional day count (`None` and `0` are falsy). -/
def truthyN : Option Nat → Bool
  | none => false
  | some n => n != 0

/-- The conflict reason produced by `_check_termination_conflict`. -/
def terminationMsg (notice minTerm : Nat) : String :=
  s!"Termination notice ({notice} days) conflicts with minimum term ({minTerm} days)"

/-- The guard of one direction of `_check_termination_conflict`: clause 1
can terminate, clause 2 carries a (truthy) minimum term, the notice count is
truthy, and the notice is shorter than the minimum term. -/
def termCond (prop1 prop2 : Proposition) : Bool :=
  prop1.can_terminate && truthyN prop2.min_term_days
    && truthyN prop1.termination_notice_days && truthyN prop2.min_term_days
    && decide (prop1.termination_notice_days.getD 0 < prop2.min_term_days.getD 0)

/-- `ClauseGuard._check_termination_conflict` (both directions, in source
order). -/
def check_termination_conflict (prop1 prop2 : Proposition) : Option String :=
  if termCond prop1 prop2 then
    some (terminationMsg (prop1.termination_notice_days.getD 0)
      (prop2.min_term_days.getD 0))
  else if termCond prop2 prop1 then
    some (terminationMsg (prop2.termination_notice_days.getD 0)
      (prop1.min_term_days.getD 0))
  else none

/-- The conflict reason produced by `_check_permission_prohibition_conflict`. -/
def permissionProhibitionMsg : String :=
  "Permission to terminate conflicts with prohibition on termination"

/-- The guard of one direction of `_check_permission_prohibition_conflict`:
clause 1 is a permission, clause 2 a prohibition, clause 1 can terminate and
clause 2's (re-lowercased) text mentions `terminate`. -/
def ppCond (prop1 prop2 : Proposition) : Bool :=
  prop1.is_permission && prop2.is_prohibition && prop1.can_terminate
    && containsSub (toLowerChars prop2.text.data) ("terminate".data)

/-- `ClauseGuard._check_permission_prohibition_conflict`. -/
def check_permission_prohibition_conflict (prop1 prop2 : Proposition) :
    Option String :=
  if ppCond prop1 prop2 then some permissionProhibitionMsg
  else if ppCond prop2 prop1 then some permissionProhibitionMsg
  else none

/-- The guard of `_check_exclusivity_conflict`: both clauses exclusive with
overlapping party sets. -/
def exclCond (prop1 prop2 : Proposition) : Bool :=
  prop1.is_exclusive && prop2.is_exclusive
    && prop1.parties.any (fun p => prop2.parties.contains p)

/-- `ClauseGuard._check_exclusivity_conflict`. -/
def check_exclusivity_conflict (prop1 prop2 : Proposition) : Option String :=
  if exclCond prop1 prop2 then
    some "Multiple exclusive rights granted to same party"
  else none

/-- The body of the pair loop of `ClauseGuard._find_conflicts`: the three
rule checks in source order; each firing check is followed by `continue`, so
the first rule that fires provides the single recorded reason. -/
def pairConflict (prop1 prop2 : Proposition) : Option String :=
  match check_termination_conflict prop1 prop2 with
  | some r => some r
  | none =>
    match check_permission_prohibition_conflict prop1 prop2 with
    | some r => some r
    | none => check_exclusivity_conflict prop1 prop2

/-- `ClauseGuard._find_conflicts`: both loops run `enumerate(propositions)`;
pairs with `j <= i` are skipped; at most one conflict is appended per pair.
(The method's `clauses` parameter is unused in its body.) -/
def find_conflicts (propositions : List Proposition) :
    List (Nat × Nat × String) :=
  propositions.enum.flatMap (fun ip =>
    propositions.enum.filterMap (fun jp =>
      if jp.1 ≤ ip.1 then none
      else (pairConflict ip.2 jp.2).map (fun r => (ip.1, jp.1, r))))

/-- One line of the conflict message of `check_consistency`. -/
def conflictLine (idx1 idx2 : Nat) (reason : String) : String :=
  s!"  - Clause {idx1 + 1} vs Clause {idx2 + 1}: {reason}"

/-- `ClauseGuard.check_consistency`. -/
def check_consistency (clauses : List String) : ClauseResult :=
  if clauses.length < 2 then
    { consistent := true
      conflicts := []
      message := "✅ Single clause - no conflicts possible." }
  else
    let propositions := extract_propositions clauses
    let conflicts := find_conflicts propositions
    if conflicts.isEmpty then
      { consistent := true
        conflicts := []
        message := "✅ VERIFIED: All clauses are logically consistent." }
    else
      let conflict_msgs := conflicts.map (fun e => conflictLine e.1 e.2.1 e.2.2)
      let n := conflicts.length
      { consistent := false
        conflicts := conflicts
        message := s!"⚠️ WARNING: {n} potential conflict(s) detected:\n"
          ++ String.intercalate "\n" conflict_msgs }

/-- Model of the solver call in `ClauseGuard.verify_using_z3`: one fresh
boolean variable per constraint string, each asserted true; the all-true
assignment satisfies every assertion, so the check reports sat. -/
def boolAssertsCheck (_constraints : List String) : Z3Result := Z3Result.sat

/-- The branch on the solver outcome in `ClauseGuard.verify_using_z3`
(sat / unsat / everything else). -/
def z3ResultReport (result : Z3Result) : ClauseResult :=
  if result = Z3Result.sat then
    { consistent := true
      conflicts := []
      message := "✅ VERIFIED: Constraints are satisfiable." }
  else if result = Z3Result.unsat then
    { consistent := false
      conflicts := []
      message := "❌ ERROR: Constraints are unsatisfiable (contradiction exists)." }
  else
    { consistent := true
      conflicts := []
      message := "⚠️ WARNING: Z3 could not determine satisfiability." }

/-- `ClauseGuard.verify_using_z3`. -/
def verify_using_z3 (constraints : List String) : ClauseResult :=
  z3ResultReport (boolAssertsCheck constraints)

/-- The mutable state of a `ClauseGuard` object: the assertion list of the
solver created in `__init__` (never read or written by any method). -/
structure GuardState where
  solverAssertions : List String
  deriving DecidableEq

/-- `ClauseGuard.__init__`: a fresh solver with no assertions. -/
def initState : GuardState := { solverAssertions := [] }

/-- A call of `check_consistency` on a guard object: the method reads only
its `clauses` argument and never touches `self.solver`, so the object state
passes through unchanged. -/
def check_consistency_call (st : GuardState) (clauses : List String) :
    ClauseResult × GuardState :=
  (check_consistency clauses, st)

end ClauseGuard

namespace ContradictionGuard

/-- The `Clause` dataclass of `contradiction_guard.py`. -/
structure Clause where
  id : String
  text : String
  category : String
  value : Int
  deriving DecidableEq

/-- The result dict of `ContradictionGuard.verify_consistency`. -/
structure VerifyResult where
  verified : Bool
  message : String
  deriving DecidableEq

/-- Relation of one compiled constraint on a solver variable. -/
inductive Rel
  | eq
  | ge
  | le
  deriving DecidableEq

/-- The DURATION branch of the constraint-translation loop: the first
matching qualifier keyword in the if/elif chain wins; unrecognized text
adds no constraint. -/
def durationConstraint (c : Clause) : Option (Rel × Int) :=
  if containsSub (toLowerChars c.text.data) ("exactly".data) then
    some (Rel.eq, c.value)
  else if containsSub (toLowerChars c.text.data) ("minimum".data)
      || containsSub (toLowerChars c.text.data) ("at least".data) then
    some (Rel.ge, c.value)
  else if containsSub (toLowerChars c.text.data) ("maximum".data)
      || containsSub (toLowerChars c.text.data) ("up to".data) then
    some (Rel.le, c.value)
  else none

/-- The LIABILITY branch of the constraint-translation loop. -/
def liabilityConstraint (c : Clause) : Option (Rel × Int) :=
  if containsSub (toLowerChars c.text.data) ("capped".data)
      || containsSub (toLowerChars c.text.data) ("max".data) then
    some (Rel.le, c.value)
  else if containsSub (toLowerChars c.text.data) ("penalty".data)
      || containsSub (toLowerChars c.text.data) ("fixed".data) then
    some (Rel.ge, c.value)
  else none

/-- Constraints added on `contract_duration_months` (the `term_clauses`
loop runs over the clauses filtered to category `DURATION`). -/
def durConstraints (clauses : List Clause) : List (Rel × Int) :=
  (clauses.filter (fun c => c.category == "DURATION")).filterMap
    durationConstraint

/-- Constraints added on `max_liability_usd`. -/
def liabConstraints (clauses : List Clause) : List (Rel × Int) :=
  (clauses.filter (fun c => c.category == "LIABILITY")).filterMap
    liabilityConstraint

/-- Truth of one compiled constraint at a variable value. -/
def relHolds (rc : Rel × Int) (x : Int) : Bool :=
  match rc.1 with
  | Rel.eq => x == rc.2
  | Rel.ge => decide (rc.2 ≤ x)
  | Rel.le => decide (x ≤ rc.2)

/-- A value for one solver variable meeting its non-negativity bound and
every compiled constraint on it. -/
def feasible (cs : List (Rel × Int)) (x : Int) : Bool :=
  decide (0 ≤ x) && cs.all (fun rc => relHolds rc x)

/-- Greatest lower bound implied by the constraints and `var >= 0`. -/
def lowB : List (Rel × Int) → Int
  | [] => 0
  | (Rel.le, _) :: rest => lowB rest
  | (Rel.ge, v) :: rest => max v (lowB rest)
  | (Rel.eq, v) :: rest => max v (lowB rest)

/-- Least upper bound implied by the constraints (`none` = unbounded). -/
def highB : List (Rel × Int) → Option Int
  | [] => none
  | (Rel.ge, _) :: rest => highB rest
  | (Rel.le, v) :: rest =>
    (match highB rest with
     | none => some v
     | some u => some (min v u))
  | (Rel.eq, v) :: rest =>
    (match highB rest with
     | none => some v
     | some u => some (min v u))

/-- Decision of satisfiability of the constraints on one variable: the
feasible set is the integer interval between the two bounds. -/
def intervalSat (cs : List (Rel × Int)) : Bool :=
  match highB cs with
  | none => true
  | some u => decide (lowB cs ≤ u)

/-- Model of `s.check()` in `ContradictionGuard.verify_consistency`.  The
emitted system constrains the three solver variables independently
(`notice_period_days` only by its non-negativity bound), and Z3 decides
such conjunctions of integer bounds, so the outcome is sat exactly when
each variable has a feasible value. -/
def solverCheck (clauses : List Clause) : Z3Result :=
  if intervalSat (durConstraints clauses) && intervalSat (liabConstraints clauses)
  then Z3Result.sat
  else Z3Result.unsat

/-- The branch on the solver outcome in
`ContradictionGuard.verify_consistency`: `if s.check() == sat: ... else:
...` — every non-sat outcome takes the contradiction branch. -/
def checkReport (result : Z3Result) : VerifyResult :=
  if result = Z3Result.sat then
    { verified := true, message := "✅ Contract logic is consistent." }
  else
    { verified := false
      message := "❌ LOGIC CONTRADICTION: Clauses are mutually exclusive. (e.g. Penalty > Liability Cap, or Min Term > Max Duration). Check Z3 trace." }

/-- `ContradictionGuard.verify_consistency`. -/
def verify_consistency (clauses : List Clause) : VerifyResult :=
  checkReport (solverCheck clauses)

/-- A `ContradictionGuard` object carries no attributes; a call is a pure
function of its argument and leaves the (empty) object state unchanged. -/
def verify_consistency_call (st : Unit) (clauses : List Clause) :
    VerifyResult × Unit :=
  (verify_consistency clauses, st)

end ContradictionGuard

namespace ContradictionGuard

theorem feasible_cons (rc : Rel × Int) (rest : List (Rel × Int)) (x : Int) :
    feasible (rc :: rest) x = (relHolds rc x && feasible rest x) := by
  simp only [feasible, List.all_cons]
  rw [Bool.and_left_comm]

theorem lowB_le_of_feasible {cs : List (Rel × Int)} {x : Int}
    (h : feasible cs x = true) : lowB cs ≤ x := by
  induction cs with
  | nil =>
    have h0 : (0 : Int) ≤ x := by simpa [feasible] using h
    simpa [lowB] using h0
  | cons rc rest ih =>
    rw [feasible_cons] at h
    simp only [Bool.and_eq_true] at h
    rcases h with ⟨h1, h2⟩
    obtain ⟨r, v⟩ := rc
    cases r with
    | le => simpa [lowB] using ih h2
    | ge =>
      have hv : v ≤ x := by simpa [relHolds] using h1
      simp only [lowB, max_le_iff]
      exact ⟨hv, ih h2⟩
    | eq =>
      have hv : x = v := by simpa [relHolds] using h1
      simp only [lowB, max_le_iff]
      exact ⟨le_of_eq hv.symm, ih h2⟩

theorem le_highB_of_feasible {cs : List (Rel × Int)} {x u : Int}
    (h : feasible cs x = true) (hu : highB cs = some u) : x ≤ u := by
  induction cs generalizing u with
  | nil => simp [highB] at hu
  | cons rc rest ih =>
    rw [feasible_cons] at h
    simp only [Bool.and_eq_true] at h
    rcases h with ⟨h1, h2⟩
    obtain ⟨r, v⟩ := rc
    cases r with
    | ge => exact ih h2 (by simpa [highB] using hu)
    | le =>
      have hv : x ≤ v := by simpa [relHolds] using h1
      cases hh : highB rest with
      | none =>
        simp only [highB, hh] at hu
        cases hu
        exact hv
      | some u2 =>
        simp only [highB, hh] at hu
        cases hu
        exact le_min hv (ih h2 hh)
    | eq =>
      have hv : x = v := by simpa [relHolds] using h1
      cases hh : highB rest with
      | none =>
        simp only [highB, hh] at hu
        cases hu
        exact le_of_eq hv
      | some u2 =>
        simp only [highB, hh] at hu
        cases hu
        exact le_min (le_of_eq hv) (ih h2 hh)

theorem intervalSat_of_feasible {cs : List (Rel × Int)} {x : Int}
    (h : feasible cs x = true) : intervalSat cs = true := by
  unfold intervalSat
  cases hh : highB cs with
  | none => rfl
  | some u =>
    have hle := le_trans (lowB_le_of_feasible h) (le_highB_of_feasible h hh)
    simpa using hle

theorem feasible_eq_false_of_intervalSat_eq_false {cs : List (Rel × Int)}
    (h : intervalSat cs = false) : ∀ x : Int, feasible cs x = false := by
  intro x
  cases hf : feasible cs x with
  | false => rfl
  | true => exact absurd (intervalSat_of_feasible hf) (by simp [h])

end ContradictionGuard

/-- The LIABILITY cap clause of the CAP-10000 / PENALTY-50000 scenario. -/
def capClause : ContradictionGuard.Clause :=
  { id := "L1", text := "Liability is capped at 10000",
    category := "LIABILITY", value := 10000 }

/-- The LIABILITY penalty clause of the CAP-10000 / PENALTY-50000 scenario. -/
def penaltyClause : ContradictionGuard.Clause :=
  { id := "L2", text := "Penalty shall be 50000",
    category := "LIABILITY", value := 50000 }

/-- Claim C1 counterexample: at a solver outcome that is neither sat nor
unsat, `ContradictionGuard.verify_consistency`'s branch on the check result
reports `verified = false`, not `true` as the claim states. -/
theorem claim_C1_counterexample :
    (ContradictionGuard.checkReport Z3Result.unknown).verified = false := rfl

/-- Claim C1 (amended): a solver UNKNOWN outcome never raises an error;
`ClauseGuard.verify_using_z3` maps it to `consistent = true` with a warning
message, while `ContradictionGuard.verify_consistency` maps every non-sat
outcome — unknown included — to `verified = false` with the generic
contradiction message. -/
theorem claim_C1_amended_unknown_handling :
    (ClauseGuard.z3ResultReport Z3Result.unknown).consistent = true
    ∧ (ClauseGuard.z3ResultReport Z3Result.unknown).message
        = "⚠️ WARNING: Z3 could not determine satisfiability."
    ∧ (ContradictionGuard.checkReport Z3Result.unknown).verified = false
    ∧ (ContradictionGuard.checkReport Z3Result.unknown).message
        = (ContradictionGuard.checkReport Z3Result.unsat).message :=
  ⟨rfl, rfl, rfl, rfl⟩

/-- Claim C2: on the two-clause input `["Seller may terminate with 10 days
notice", "Neither party may terminate before 90 days"]`,
`ClauseGuard.check_consistency` returns `consistent = false` with exactly
one conflict, for the pair (0, 1), whose reason cites the notice period 10
being less than the minimum term 90. -/
theorem claim_C2_notice_vs_min_term_example :
    (ClauseGuard.check_consistency
        ["Seller may terminate with 10 days notice",
         "Neither party may terminate before 90 days"]).consistent = false
    ∧ (ClauseGuard.check_consistency
        ["Seller may terminate with 10 days notice",
         "Neither party may terminate before 90 days"]).conflicts
      = [(0, 1, "Termination notice (10 days) conflicts with minimum term (90 days)")] :=
  ⟨rfl, rfl⟩

/-- Claim C6: the CAP-10000 / PENALTY-50000 LIABILITY pair compiles to the
constraints `max_liability_usd <= 10000` and `max_liability_usd >= 50000`;
together with the non-negativity bound no value is feasible, and
`ContradictionGuard.verify_consistency` reports `verified = false`. -/
theorem claim_C6_cap_penalty_unsat :
    ContradictionGuard.liabConstraints [capClause, penaltyClause]
      = [(ContradictionGuard.Rel.le, 10000), (ContradictionGuard.Rel.ge, 50000)]
    ∧ (∀ x : Int,
        ContradictionGuard.feasible
          (ContradictionGuard.liabConstraints [capClause, penaltyClause]) x = false)
    ∧ (ContradictionGuard.verify_consistency [capClause, penaltyClause]).verified
        = false := by
  refine ⟨rfl, ?_, rfl⟩
  exact ContradictionGuard.feasible_eq_false_of_intervalSat_eq_false rfl

namespace ClauseGuard

theorem check_termination_isSome (p q : Proposition) :
    (check_termination_conflict p q).isSome = (termCond p q || termCond q p) := by
  unfold check_termination_conflict
  cases h1 : termCond p q <;> cases h2 : termCond q p <;> simp [h1, h2]

theorem check_pp_isSome (p q : Proposition) :
    (check_permission_prohibition_conflict p q).isSome
      = (ppCond p q || ppCond q p) := by
  unfold check_permission_prohibition_conflict
  cases h1 : ppCond p q <;> cases h2 : ppCond q p <;> simp [h1, h2]

theorem check_excl_isSome (p q : Proposition) :
    (check_exclusivity_conflict p q).isSome = exclCond p q := by
  unfold check_exclusivity_conflict
  cases h : exclCond p q <;> simp [h]

theorem any_contains_iff (l1 l2 : List String) :
    l1.any (fun x => l2.contains x) = true ↔ ∃ x, x ∈ l1 ∧ x ∈ l2 := by
  simp [List.any_eq_true, List.elem_iff]

theorem exclCond_symm (p q : Proposition) : exclCond p q = exclCond q p := by
  have hany : p.parties.any (fun x => q.parties.contains x)
      = q.parties.any (fun x => p.parties.contains x) := by
    cases h1 : p.parties.any (fun x => q.parties.contains x) with
    | true =>
      obtain ⟨x, hx1, hx2⟩ := (any_contains_iff _ _).mp h1
      exact ((any_contains_iff _ _).mpr ⟨x, hx2, hx1⟩).symm
    | false =>
      cases h2 : q.parties.any (fun x => p.parties.contains x) with
      | false => rfl
      | true =>
        obtain ⟨x, hx1, hx2⟩ := (any_contains_iff _ _).mp h2
        rw [(any_contains_iff _ _).mpr ⟨x, hx2, hx1⟩] at h1
        cases h1
  unfold exclCond
  rw [hany, Bool.and_comm p.is_exclusive, Bool.and_assoc]

theorem pairConflict_isSome (p q : Proposition) :
    (pairConflict p q).isSome
      = ((check_termination_conflict p q).isSome
         || (check_permission_prohibition_conflict p q).isSome
         || (check_exclusivity_conflict p q).isSome) := by
  unfold pairConflict
  cases check_termination_conflict p q <;>
    cases check_permission_prohibition_conflict p q <;>
      cases check_exclusivity_conflict p q <;> rfl

theorem pairConflict_isSome_symm (p q : Proposition) :
    (pairConflict p q).isSome = (pairConflict q p).isSome := by
  rw [pairConflict_isSome, pairConflict_isSome,
    check_termination_isSome, check_termination_isSome,
    check_pp_isSome, check_pp_isSome,
    check_excl_isSome, check_excl_isSome,
    exclCond_symm, Bool.or_comm (termCond p q), Bool.or_comm (ppCond p q)]

theorem find_conflicts_pair (p q : Proposition) :
    find_conflicts [p, q]
      = ((pairConflict p q).map (fun r => (0, 1, r))).toList := by
  cases h : pairConflict p q <;>
    simp [find_conflicts, List.enum, List.enumFrom, h]

end ClauseGuard

/-- Claim C4 counterexample: when both clauses carry a notice period and a
minimum term, swapping the two clauses changes which (notice, minimum-term)
pair the single reported reason cites, so the sets of conflict reason
strings differ. -/
theorem claim_C4_counterexample :
    (ClauseGuard.check_consistency
        ["party may terminate with 10 days notice and not before 50 days",
         "party may terminate with 20 days notice and not before 90 days"]).conflicts.map
        (fun e => e.2.2)
      = ["Termination notice (10 days) conflicts with minimum term (90 days)"]
    ∧ (ClauseGuard.check_consistency
        ["party may terminate with 20 days notice and not before 90 days",
         "party may terminate with 10 days notice and not before 50 days"]).conflicts.map
        (fun e => e.2.2)
      = ["Termination notice (20 days) conflicts with minimum term (50 days)"]
    ∧ (("Termination notice (10 days) conflicts with minimum term (90 days)" : String)
        == "Termination notice (20 days) conflicts with minimum term (50 days)")
      = false :=
  ⟨rfl, rfl, rfl⟩

/-- Claim C4 (amended): for every two clause texts, `[A, B]` and `[B, A]`
yield the same `consistent` verdict, and a conflict is reported for the
pair in one order exactly when it is reported in the other; the single
reason string may differ between the two orders when both clauses carry
both a notice period and a minimum term. -/
theorem claim_C4_amended_swap_same_verdict (a b : String) :
    (ClauseGuard.check_consistency [a, b]).consistent
      = (ClauseGuard.check_consistency [b, a]).consistent
    ∧ (ClauseGuard.check_consistency [a, b]).conflicts.isEmpty
      = (ClauseGuard.check_consistency [b, a]).conflicts.isEmpty := by
  have hsym := ClauseGuard.pairConflict_isSome_symm
    (ClauseGuard.extractProp a) (ClauseGuard.extractProp b)
  constructor <;>
  · cases h1 : ClauseGuard.pairConflict
      (ClauseGuard.extractProp a) (ClauseGuard.extractProp b) with
    | some r =>
      have h2s : (ClauseGuard.pairConflict
          (ClauseGuard.extractProp b) (ClauseGuard.extractProp a)).isSome = true := by
        rw [← hsym, h1]
        rfl
      obtain ⟨r2, h2⟩ := Option.isSome_iff_exists.mp h2s
      simp [ClauseGuard.check_consistency, ClauseGuard.extract_propositions,
        ClauseGuard.find_conflicts_pair, h1, h2]
    | none =>
      have h2 : ClauseGuard.pairConflict
          (ClauseGuard.extractProp b) (ClauseGuard.extractProp a) = none := by
        apply Option.not_isSome_iff_eq_none.mp
        rw [← hsym, h1]
        simp
      simp [ClauseGuard.check_consistency, ClauseGuard.extract_propositions,
        ClauseGuard.find_conflicts_pair, h1, h2]

/-- Claim C5 counterexample: the pair ("Buyer may cancel the order at any
time", "Buyer shall not terminate the agreement") is reported as a
permission-vs-prohibition conflict although the permission clause's text
does not contain the word "terminate" (its `can_terminate` flag comes from
"cancel"). -/
theorem claim_C5_counterexample :
    (ClauseGuard.check_consistency
        ["Buyer may cancel the order at any time",
         "Buyer shall not terminate the agreement"]).conflicts
      = [(0, 1, "Permission to terminate conflicts with prohibition on termination")]
    ∧ containsSub
        (toLowerChars ("Buyer may cancel the order at any time".data))
        ("terminate".data) = false :=
  ⟨rfl, rfl⟩

/-- Claim C5 (amended): the permission-vs-prohibition rule fires on a pair
of extracted propositions exactly when one clause carries a permission
keyword and its termination flag (any of "terminate", "termination",
"cancel", "end the agreement" in its lowered text) while the other carries
a prohibition keyword and the word "terminate" occurs at text level in that
prohibition-side clause only. -/
theorem claim_C5_amended_rule_characterization (a b : String) :
    (ClauseGuard.check_permission_prohibition_conflict
        (ClauseGuard.extractProp a) (ClauseGuard.extractProp b)).isSome
      = ((ClauseGuard.permKeyword (toLowerChars a.data)
            && ClauseGuard.prohibKeyword (toLowerChars b.data)
            && ClauseGuard.has_termination (toLowerChars a.data)
            && containsSub (toLowerChars b.data) ("terminate".data))
         || (ClauseGuard.permKeyword (toLowerChars b.data)
            && ClauseGuard.prohibKeyword (toLowerChars a.data)
            && ClauseGuard.has_termination (toLowerChars b.data)
            && containsSub (toLowerChars a.data) ("terminate".data))) := by
  rw [ClauseGuard.check_pp_isSome]
  rfl

namespace ContradictionGuard

/-- No recognized DURATION qualifier keyword occurs in the clause text. -/
def noDurationKeyword (c : Clause) : Bool :=
  !(containsSub (toLowerChars c.text.data) ("exactly".data))
    && !(containsSub (toLowerChars c.text.data) ("minimum".data))
    && !(containsSub (toLowerChars c.text.data) ("at least".data))
    && !(containsSub (toLowerChars c.text.data) ("maximum".data))
    && !(containsSub (toLowerChars c.text.data) ("up to".data))

/-- No recognized LIABILITY qualifier keyword occurs in the clause text. -/
def noLiabilityKeyword (c : Clause) : Bool :=
  !(containsSub (toLowerChars c.text.data) ("capped".data))
    && !(containsSub (toLowerChars c.text.data) ("max".data))
    && !(containsSub (toLowerChars c.text.data) ("penalty".data))
    && !(containsSub (toLowerChars c.text.data) ("fixed".data))

theorem durationConstraint_eq_none (c : Clause)
    (h : noDurationKeyword c = true) : durationConstraint c = none := by
  simp only [noDurationKeyword, Bool.and_eq_true, Bool.not_eq_true'] at h
  obtain ⟨⟨⟨⟨h1, h2⟩, h3⟩, h4⟩, h5⟩ := h
  simp [durationConstraint, h1, h2, h3, h4, h5]

theorem liabilityConstraint_eq_none (c : Clause)
    (h : noLiabilityKeyword c = true) : liabilityConstraint c = none := by
  simp only [noLiabilityKeyword, Bool.and_eq_true, Bool.not_eq_true'] at h
  obtain ⟨⟨⟨h1, h2⟩, h3⟩, h4⟩ := h
  simp [liabilityConstraint, h1, h2, h3, h4]

end ContradictionGuard

/-- Claim C7: categorized clauses whose text contains no recognized
qualifier keyword contribute no constraint at all, and verifying them alone
produces the same result as verifying the empty clause list. -/
theorem claim_C7_unrecognized_qualifiers_dropped
    (clauses : List ContradictionGuard.Clause)
    (h : ∀ c ∈ clauses,
        (c.category = "DURATION" → ContradictionGuard.noDurationKeyword c = true)
        ∧ (c.category = "LIABILITY" → ContradictionGuard.noLiabilityKeyword c = true)) :
    ContradictionGuard.durConstraints clauses = []
    ∧ ContradictionGuard.liabConstraints clauses = []
    ∧ ContradictionGuard.verify_consistency clauses
        = ContradictionGuard.verify_consistency [] := by
  have hd : ContradictionGuard.durConstraints clauses = [] := by
    apply List.filterMap_eq_nil_iff.mpr
    intro c hc
    rw [List.mem_filter] at hc
    have hcat : c.category = "DURATION" := by simpa using hc.2
    exact ContradictionGuard.durationConstraint_eq_none c ((h c hc.1).1 hcat)
  have hl : ContradictionGuard.liabConstraints clauses = [] := by
    apply List.filterMap_eq_nil_iff.mpr
    intro c hc
    rw [List.mem_filter] at hc
    have hcat : c.category = "LIABILITY" := by simpa using hc.2
    exact ContradictionGuard.liabilityConstraint_eq_none c ((h c hc.1).2 hcat)
  refine ⟨hd, hl, ?_⟩
  unfold ContradictionGuard.verify_consistency ContradictionGuard.solverCheck
  rw [hd, hl]
  rfl

/-- A DURATION clause with no recognized qualifier keyword in its text. -/
def plainDurationClause : ContradictionGuard.Clause :=
  { id := "d1", text := "The term continues", category := "DURATION", value := 12 }

/-- Witness for claim C7 at a concrete qualifier-free DURATION clause. -/
theorem claim_C7_witness :
    ContradictionGuard.durConstraints [plainDurationClause] = []
    ∧ ContradictionGuard.liabConstraints [plainDurationClause] = []
    ∧ ContradictionGuard.verify_consistency [plainDurationClause]
        = ContradictionGuard.verify_consistency [] :=
  claim_C7_unrecognized_qualifiers_dropped [plainDurationClause] (by decide)

/-- Claim C8: proposition extraction is total — it returns exactly one
proposition per input clause, in order, and each field for which no pattern
matched is `none`, `false` or empty rather than an error. -/
theorem claim_C8_extraction_total (clauses : List String) (t : String) :
    (ClauseGuard.extract_propositions clauses).length = clauses.length
    ∧ ClauseGuard.extract_propositions clauses = clauses.map ClauseGuard.extractProp
    ∧ (ClauseGuard.has_termination (toLowerChars t.data) = false →
        (ClauseGuard.extractProp t).can_terminate = false)
    ∧ (containsSub (toLowerChars t.data) ("notice".data) = false →
        (ClauseGuard.extractProp t).termination_notice_days = none)
    ∧ (containsSub (toLowerChars t.data) ("before".data) = false →
        (ClauseGuard.extractProp t).min_term_days = none)
    ∧ (ClauseGuard.prohibKeyword (toLowerChars t.data) = false →
        (ClauseGuard.extractProp t).is_prohibition = false)
    ∧ (ClauseGuard.permKeyword (toLowerChars t.data) = false →
        (ClauseGuard.extractProp t).is_permission = false)
    ∧ (containsSub (toLowerChars t.data) ("exclusive".data) = false →
        containsSub (toLowerChars t.data) ("only".data) = false →
        (ClauseGuard.extractProp t).is_exclusive = false)
    ∧ ((∀ p ∈ ClauseGuard.partyVocab,
          containsSub (toLowerChars t.data) p.data = false) →
        (ClauseGuard.extractProp t).parties = []) := by
  refine ⟨by simp [ClauseGuard.extract_propositions], rfl, ?_, ?_, ?_, ?_, ?_, ?_, ?_⟩
  · intro h
    exact h
  · intro h
    show extract_days (toLowerChars t.data) ("notice".data) = none
    simp [extract_days, h]
  · intro h
    show extract_days (toLowerChars t.data) ("before".data) = none
    simp [extract_days, h]
  · intro h
    exact h
  · intro h
    exact h
  · intro h1 h2
    show (containsSub (toLowerChars t.data) ("exclusive".data)
      || containsSub (toLowerChars t.data) ("only".data)) = false
    rw [h1, h2]
    rfl
  · intro h
    show ClauseGuard.extract_parties (toLowerChars t.data) = []
    apply List.filter_eq_nil_iff.mpr
    intro p hp
    simp [h p hp]

/-- Witness for claim C8 at the concrete pattern-free text "hello". -/
theorem claim_C8_witness :
    (ClauseGuard.extract_propositions ["hello"]).length = 1
    ∧ (ClauseGuard.extractProp "hello").can_terminate = false
    ∧ (ClauseGuard.extractProp "hello").termination_notice_days = none
    ∧ (ClauseGuard.extractProp "hello").min_term_days = none
    ∧ (ClauseGuard.extractProp "hello").is_prohibition = false
    ∧ (ClauseGuard.extractProp "hello").is_permission = false
    ∧ (ClauseGuard.extractProp "hello").is_exclusive = false
    ∧ (ClauseGuard.extractProp "hello").parties = [] := by
  have h := claim_C8_extraction_total ["hello"] "hello"
  exact ⟨h.1, h.2.2.1 rfl, h.2.2.2.1 rfl, h.2.2.2.2.1 rfl, h.2.2.2.2.2.1 rfl,
    h.2.2.2.2.2.2.1 rfl, h.2.2.2.2.2.2.2.1 rfl rfl,
    h.2.2.2.2.2.2.2.2 (by decide)⟩

namespace ContradictionGuard

theorem filter_dur_liab_length (cs : List Clause) :
    (cs.filter (fun c => c.category == "DURATION")).length
      + (cs.filter (fun c => c.category == "LIABILITY")).length ≤ cs.length := by
  induction cs with
  | nil => simp
  | cons c rest ih =>
    cases hD : (c.category == "DURATION") <;>
      cases hL : (c.category == "LIABILITY")
    · simp [List.filter_cons, hD, hL]
      omega
    · simp [List.filter_cons, hD, hL]
      omega
    · simp [List.filter_cons, hD, hL]
      omega
    · have e1 : c.category = "DURATION" := by simpa using hD
      have e2 : c.category = "LIABILITY" := by simpa using hL
      rw [e1] at e2
      exact absurd e2 (by decide)

end ContradictionGuard

/-- Claim C10: qualifier classification is first-match in a fixed keyword
order — a DURATION clause containing "exactly" compiles to an EQ constraint
regardless of further keywords, a LIABILITY clause containing "capped" or
"max" compiles to an upper bound, and each clause contributes at most one
constraint overall. -/
theorem claim_C10_first_match_qualifier (c : ContradictionGuard.Clause) :
    (containsSub (toLowerChars c.text.data) ("exactly".data) = true →
      ContradictionGuard.durationConstraint c
        = some (ContradictionGuard.Rel.eq, c.value))
    ∧ ((containsSub (toLowerChars c.text.data) ("capped".data) = true
        ∨ containsSub (toLowerChars c.text.data) ("max".data) = true) →
      ContradictionGuard.liabilityConstraint c
        = some (ContradictionGuard.Rel.le, c.value))
    ∧ (∀ cs : List ContradictionGuard.Clause,
        (ContradictionGuard.durConstraints cs).length
          + (ContradictionGuard.liabConstraints cs).length ≤ cs.length) := by
  refine ⟨?_, ?_, ?_⟩
  · intro h
    simp [ContradictionGuard.durationConstraint, h]
  · intro h
    rcases h with h | h <;> simp [ContradictionGuard.liabilityConstraint, h]
  · intro cs
    have h1 := List.length_filterMap_le ContradictionGuard.durationConstraint
      (cs.filter (fun c => c.category == "DURATION"))
    have h2 := List.length_filterMap_le ContradictionGuard.liabilityConstraint
      (cs.filter (fun c => c.category == "LIABILITY"))
    have h3 := ContradictionGuard.filter_dur_liab_length cs
    simp only [ContradictionGuard.durConstraints, ContradictionGuard.liabConstraints]
    omega

/-- A DURATION clause containing both "exactly" and "minimum". -/
def exactDurationClause : ContradictionGuard.Clause :=
  { id := "d", text := "Term is exactly 12 months, minimum 24 months",
    category := "DURATION", value := 12 }

/-- A LIABILITY clause containing both "capped" and "penalty". -/
def capPenaltyClause : ContradictionGuard.Clause :=
  { id := "l", text := "Liability capped at 10000, penalty 5000",
    category := "LIABILITY", value := 10000 }

/-- Witness for claim C10 at concrete multi-keyword clauses. -/
theorem claim_C10_witness :
    ContradictionGuard.durationConstraint exactDurationClause
      = some (ContradictionGuard.Rel.eq, 12)
    ∧ ContradictionGuard.liabilityConstraint capPenaltyClause
      = some (ContradictionGuard.Rel.le, 10000)
    ∧ (ContradictionGuard.durConstraints [exactDurationClause]).length
        + (ContradictionGuard.liabConstraints [exactDurationClause]).length ≤ 1 :=
  ⟨(claim_C10_first_match_qualifier exactDurationClause).1 rfl,
   (claim_C10_first_match_qualifier capPenaltyClause).2.1 (Or.inl rfl),
   (claim_C10_first_match_qualifier exactDurationClause).2.2 [exactDurationClause]⟩

namespace ClauseGuard

/-- Strict lexicographic order on recorded conflicts by their index pair:
the nested-loop discovery order of `_find_conflicts`. -/
def lexLt (a b : Nat × Nat × String) : Prop :=
  a.1 < b.1 ∨ (a.1 = b.1 ∧ a.2.1 < b.2.1)

theorem enum_pairwise {α : Type} (l : List α) :
    l.enum.Pairwise (fun a b => a.1 < b.1) := by
  have h := List.pairwise_lt_range l.length
  rw [← List.enum_map_fst l] at h
  exact List.pairwise_map.mp h

theorem inner_shape {i : Nat} {p : Proposition} {jp : Nat × Proposition}
    {b : Nat × Nat × String}
    (h : (if jp.1 ≤ i then none
          else (pairConflict p jp.2).map (fun r => (i, jp.1, r))) = some b) :
    b.1 = i ∧ b.2.1 = jp.1 := by
  by_cases hle : jp.1 ≤ i
  · rw [if_pos hle] at h
    cases h
  · rw [if_neg hle] at h
    rw [Option.map_eq_some'] at h
    obtain ⟨r, _, he⟩ := h
    rw [← he]
    exact ⟨rfl, rfl⟩

theorem inner_eq_some {i : Nat} {p : Proposition} {jp : Nat × Proposition}
    {b : Nat × Nat × String}
    (h : (if jp.1 ≤ i then none
          else (pairConflict p jp.2).map (fun r => (i, jp.1, r))) = some b) :
    i < jp.1 ∧ ∃ r, pairConflict p jp.2 = some r ∧ b = (i, jp.1, r) := by
  by_cases hle : jp.1 ≤ i
  · rw [if_pos hle] at h
    cases h
  · rw [if_neg hle] at h
    rw [Option.map_eq_some'] at h
    obtain ⟨r, hr, he⟩ := h
    exact ⟨Nat.lt_of_not_le hle, r, hr, he.symm⟩

theorem mem_find_conflicts {props : List Proposition} {e : Nat × Nat × String} :
    e ∈ find_conflicts props
      ↔ e.1 < e.2.1
        ∧ ∃ p1 p2, props[e.1]? = some p1 ∧ props[e.2.1]? = some p2
            ∧ pairConflict p1 p2 = some e.2.2 := by
  unfold find_conflicts
  rw [List.mem_flatMap]
  constructor
  · rintro ⟨ip, hip, hinner⟩
    rw [List.mem_filterMap] at hinner
    obtain ⟨jp, hjp, hsome⟩ := hinner
    obtain ⟨hij, r, hr, he⟩ := inner_eq_some hsome
    subst he
    exact ⟨hij, ip.2, jp.2, List.mem_enum_iff_getElem?.mp hip,
      List.mem_enum_iff_getElem?.mp hjp, hr⟩
  · obtain ⟨i, j, r⟩ := e
    rintro ⟨hij, p1, p2, h1, h2, hr⟩
    refine ⟨(i, p1), List.mem_enum_iff_getElem?.mpr h1, ?_⟩
    rw [List.mem_filterMap]
    refine ⟨(j, p2), List.mem_enum_iff_getElem?.mpr h2, ?_⟩
    show (if j ≤ i then none
      else (pairConflict p1 p2).map (fun r => (i, j, r))) = some (i, j, r)
    rw [if_neg (Nat.not_le_of_lt hij), hr]
    rfl

theorem find_conflicts_pairwise (props : List Proposition) :
    (find_conflicts props).Pairwise lexLt := by
  unfold find_conflicts
  rw [List.pairwise_flatMap]
  constructor
  · intro ip _
    rw [List.pairwise_filterMap]
    refine (enum_pairwise props).imp ?_
    intro jp jp' hlt b hb b' hb'
    rw [Option.mem_def] at hb hb'
    have s1 := inner_shape hb
    have s2 := inner_shape hb'
    right
    constructor
    · rw [s1.1, s2.1]
    · rw [s1.2, s2.2]
      exact hlt
  · refine (enum_pairwise props).imp ?_
    intro ip ip' hlt x hx y hy
    rw [List.mem_filterMap] at hx hy
    obtain ⟨jp, _, hxs⟩ := hx
    obtain ⟨jp', _, hys⟩ := hy
    have s1 := inner_shape hxs
    have s2 := inner_shape hys
    left
    rw [s1.1, s2.1]
    exact hlt

end ClauseGuard

/-- Claim C3: for every input, the heuristic detector records at most one
conflict per unordered index pair (i < j); the recorded reason is the one
of the first firing rule in the precedence order termination,
permission-vs-prohibition, exclusivity; and the returned list is in
outer-loop-ascending / inner-loop-ascending order of (i, j). -/
theorem claim_C3_pair_loop_spec (props : List ClauseGuard.Proposition) :
    (∀ e ∈ ClauseGuard.find_conflicts props,
        e.1 < e.2.1
        ∧ ∃ p1 p2, props[e.1]? = some p1 ∧ props[e.2.1]? = some p2
            ∧ ClauseGuard.pairConflict p1 p2 = some e.2.2)
    ∧ (ClauseGuard.find_conflicts props).Pairwise ClauseGuard.lexLt
    ∧ (∀ e ∈ ClauseGuard.find_conflicts props,
        ∀ e2 ∈ ClauseGuard.find_conflicts props,
          e.1 = e2.1 → e.2.1 = e2.2.1 → e = e2)
    ∧ (∀ p q : ClauseGuard.Proposition, ∀ r : String,
        ClauseGuard.check_termination_conflict p q = some r →
          ClauseGuard.pairConflict p q = some r)
    ∧ (∀ p q : ClauseGuard.Proposition, ∀ r : String,
        ClauseGuard.check_termination_conflict p q = none →
          ClauseGuard.check_permission_prohibition_conflict p q = some r →
            ClauseGuard.pairConflict p q = some r)
    ∧ (∀ p q : ClauseGuard.Proposition,
        ClauseGuard.check_termination_conflict p q = none →
          ClauseGuard.check_permission_prohibition_conflict p q = none →
            ClauseGuard.pairConflict p q
              = ClauseGuard.check_exclusivity_conflict p q) := by
  have hpw := ClauseGuard.find_conflicts_pairwise props
  refine ⟨?_, hpw, ?_, ?_, ?_, ?_⟩
  · intro e he
    exact ClauseGuard.mem_find_conflicts.mp he
  · intro e he e2 he2 h1 h2
    by_contra hne
    have hweak : (ClauseGuard.find_conflicts props).Pairwise
        (fun a b => ClauseGuard.lexLt a b ∨ ClauseGuard.lexLt b a) :=
      hpw.imp Or.inl
    have hsym : Symmetric
        (fun a b : Nat × Nat × String =>
          ClauseGuard.lexLt a b ∨ ClauseGuard.lexLt b a) :=
      fun _ _ h => h.symm
    have hor := List.Pairwise.forall hsym hweak he he2 hne
    rcases hor with h | h <;> rcases h with h | h <;> omega
  · intro p q r h
    simp [ClauseGuard.pairConflict, h]
  · intro p q r h1 h2
    simp [ClauseGuard.pairConflict, h1, h2]
  · intro p q h1 h2
    simp [ClauseGuard.pairConflict, h1, h2]

/-- A proposition permitting termination with a 10-day notice. -/
def sampleProp1 : ClauseGuard.Proposition :=
  { text := "a", can_terminate := true, termination_notice_days := some 10,
    min_term_days := none, is_exclusive := false, is_prohibition := false,
    is_permission := true, parties := [] }

/-- A proposition imposing a 90-day minimum term. -/
def sampleProp2 : ClauseGuard.Proposition :=
  { text := "b", can_terminate := false, termination_notice_days := none,
    min_term_days := some 90, is_exclusive := false, is_prohibition := false,
    is_permission := false, parties := [] }

/-- A proposition prohibiting termination, with "terminate" in its text. -/
def sampleProp3 : ClauseGuard.Proposition :=
  { text := "no party may terminate", can_terminate := true,
    termination_notice_days := none, min_term_days := none,
    is_exclusive := false, is_prohibition := true, is_permission := false,
    parties := [] }

/-- A proposition with every flag unset. -/
def sampleProp4 : ClauseGuard.Proposition :=
  { text := "x", can_terminate := false, termination_notice_days := none,
    min_term_days := none, is_exclusive := false, is_prohibition := false,
    is_permission := false, parties := [] }

/-- Witness for claim C3 at concrete propositions: the recorded conflict of
a two-proposition run, and the precedence facts at concrete rule inputs. -/
theorem claim_C3_witness :
    ((0 : Nat) < 1
      ∧ ∃ p1 p2, [sampleProp1, sampleProp2][0]? = some p1
          ∧ [sampleProp1, sampleProp2][1]? = some p2
          ∧ ClauseGuard.pairConflict p1 p2
              = some (ClauseGuard.terminationMsg 10 90))
    ∧ ClauseGuard.pairConflict sampleProp1 sampleProp2
        = some (ClauseGuard.terminationMsg 10 90)
    ∧ ClauseGuard.pairConflict sampleProp1 sampleProp3
        = some ClauseGuard.permissionProhibitionMsg
    ∧ ClauseGuard.pairConflict sampleProp4 sampleProp4
        = ClauseGuard.check_exclusivity_conflict sampleProp4 sampleProp4 := by
  have h := claim_C3_pair_loop_spec [sampleProp1, sampleProp2]
  refine ⟨?_, ?_, ?_, ?_⟩
  · exact h.1 (0, 1, ClauseGuard.terminationMsg 10 90)
      (by
        rw [show ClauseGuard.find_conflicts [sampleProp1, sampleProp2]
          = [(0, 1, ClauseGuard.terminationMsg 10 90)] from rfl]
        exact List.mem_singleton_self _)
  · exact h.2.2.2.1 sampleProp1 sampleProp2
      (ClauseGuard.terminationMsg 10 90) rfl
  · exact h.2.2.2.2.1 sampleProp1 sampleProp3
      ClauseGuard.permissionProhibitionMsg rfl rfl
  · exact h.2.2.2.2.2 sampleProp4 sampleProp4 rfl rfl

/-- Claim C9: verification is idempotent and leak-free across calls — a
`check_consistency` call leaves the guard state unchanged, a repeated call
returns the same report, the report depends only on the clause argument
(never on the state left by earlier calls), and `ContradictionGuard`
carries no state at all. -/
theorem claim_C9_idempotent_and_stateless (st : ClauseGuard.GuardState)
    (clauses : List String) (cls : List ContradictionGuard.Clause) :
    (ClauseGuard.check_consistency_call st clauses).2 = st
    ∧ (ClauseGuard.check_consistency_call
          (ClauseGuard.check_consistency_call st clauses).2 clauses).1
        = (ClauseGuard.check_consistency_call st clauses).1
    ∧ (∀ st2 : ClauseGuard.GuardState, ∀ clauses2 : List String,
        (ClauseGuard.check_consistency_call st2 clauses2).1
          = ClauseGuard.check_consistency clauses2)
    ∧ (ContradictionGuard.verify_consistency_call () cls).2 = ()
    ∧ (ContradictionGuard.verify_consistency_call
          (ContradictionGuard.verify_consistency_call () cls).2 cls).1
        = (ContradictionGuard.verify_consistency_call () cls).1 :=
  ⟨rfl, rfl, fun _ _ => rfl, rfl, rfl⟩

end QwedLegal
